import Mathlib

/-!
Shallow embedding of the snake game (src/snake.c, src/draw.c) and proofs of
the specification claims about it.

Coordinate convention, taken from the source: a `Point` has fields `x` and
`y`; the renderer places a point at terminal row `x+1`, column `y+1`
(draw.c, `draw_snake`/`draw_fruit`), `check_collision` bounds `x` by
`HEIGHT` and `y` by `WIDTH`, and direction flag 1 (Down) increments `x`.
So `x` is the row and `y` is the column.

The snake array of capacity `LENGTH_SNAKE` is embedded as a total function
`Nat → Point` together with the current `length`; all source loops touch
only indices the function models pointwise.
-/

namespace SnakeGame

/-- `Point` from the repository's `point.h` (not under src; its shape is
forced by every use in snake.c and draw.c: an `x` and a `y` integer field). -/
structure Point where
  x : Int
  y : Int
deriving DecidableEq, Repr

/-- Modelled from the spec: `constants.h` is missing from src. The spec's
concrete scenario fixes the board as 20×10 with the initial snake cell
`(WIDTH / 2, HEIGHT / 2) = (10, 5)`, so `WIDTH = 20`. -/
def WIDTH : Int := 20

/-- Modelled from the spec: `constants.h` is missing from src. The spec's
concrete scenario fixes the board as 20×10, so `HEIGHT = 10`. -/
def HEIGHT : Int := 10

/-- `fruits` (snake.c lines 36-40). The two `rand()` draws are passed in as
the nonnegative integers `r1`, `r2`; the function returns the new
`(fruitx, fruity)` pair: `rand() % (WIDTH-2) + 1` and
`rand() % (HEIGHT-2) + 1`. -/
def fruits (r1 r2 : Nat) : Int × Int :=
  ((r1 : Int) % (WIDTH - 2) + 1, (r2 : Int) % (HEIGHT - 2) + 1)

/-- `input` (snake.c lines 62-99). `ch`, `ch2`, `ch3` are the up to three
bytes read by `getchar()` (with no byte pending, `getchar` returns `EOF`,
i.e. `-1`); `flag` is the current direction flag, and the result is the
updated flag. Arrow keys arrive as the escape sequence `27 91 (65|66|67|68)`;
`x`/`X` (`120`/`88`) set the quit signal `-1`. -/
def input (ch ch2 ch3 flag : Int) : Int :=
  if ch = 27 then
    if ch2 = 91 then
      if ch3 = 65 then (if flag ≠ 1 then 3 else flag)
      else if ch3 = 66 then (if flag ≠ 3 then 1 else flag)
      else if ch3 = 67 then (if flag ≠ 2 then 4 else flag)
      else if ch3 = 68 then (if flag ≠ 4 then 2 else flag)
      else flag
    else flag
  else if ch = 120 ∨ ch = 88 then -1
  else flag

/-- `move_snake` (snake.c lines 116-143). `temp` is the head captured before
the shift; the loop `for (i = 0; i < length; i++) snake[i] = snake[i+1]`
writes index `i` from the not-yet-overwritten index `i+1`, so after it
index `i < length` holds the old index `i+1`; the switch then overwrites
index `length-1` with the offset head (and leaves the shifted value there
for a flag outside 1..4). -/
def move_snake (snake : Nat → Point) (length : Nat) (flag : Int) : Nat → Point :=
  fun i =>
    if i = length - 1 then
      if flag = 1 then ⟨(snake (length - 1)).x + 1, (snake (length - 1)).y⟩
      else if flag = 2 then ⟨(snake (length - 1)).x, (snake (length - 1)).y - 1⟩
      else if flag = 3 then ⟨(snake (length - 1)).x - 1, (snake (length - 1)).y⟩
      else if flag = 4 then ⟨(snake (length - 1)).x, (snake (length - 1)).y + 1⟩
      else if i < length then snake (i + 1) else snake i
    else if i < length then snake (i + 1) else snake i

/-- `check_collision` (snake.c lines 156-167): `2` when the head touches or
crosses the border (`x <= 0 || x >= HEIGHT-1 || y <= 0 || y >= WIDTH-1`),
otherwise `1` when the head equals some segment of index `< length-1`
(the loop `for (i = 0; i < length-1; i++)`), otherwise `0`. -/
def check_collision (snake : Nat → Point) (length : Nat) : Int :=
  if (snake (length - 1)).x ≤ 0 ∨ HEIGHT - 1 ≤ (snake (length - 1)).x ∨
      (snake (length - 1)).y ≤ 0 ∨ WIDTH - 1 ≤ (snake (length - 1)).y then 2
  else if (List.range (length - 1)).any (fun i => decide (snake i = snake (length - 1))) then 1
  else 0

/-- The record of values `grow_snake` writes through its pointer arguments. -/
structure GrowOut where
  snake : Nat → Point
  length : Nat
  score : Int
  fruitx : Int
  fruity : Int

/-- `grow_snake` (snake.c lines 190-203). `old = snake[0]` is captured, the
fruit is regenerated via `fruits` (the drawing calls have no state effect),
the score gains 5, the loop `for (i = length; i > 0; i--)
snake[i] = snake[i-1]` moves every index `1 ≤ i ≤ length` up from the
not-yet-overwritten index `i-1`, index 0 is rewritten with `old` (its own
former value), and the length gains 1. -/
def grow_snake (r1 r2 : Nat) (snake : Nat → Point) (length : Nat) (score : Int) : GrowOut :=
  { snake := fun i =>
      if i = 0 then snake 0
      else if i ≤ length then snake (i - 1)
      else snake i
  , length := length + 1
  , score := score + 5
  , fruitx := (fruits r1 r2).1
  , fruity := (fruits r1 r2).2 }

/-- The tick sleep interval in nanoseconds computed by `logic`
(snake.c lines 222-234): `ts.tv_nsec` is 250000000 and then reassigned by
the `if (score >= 25) ... else if (score >= 50) ... else if (score >= 75)`
chain, of which at most the first matching branch runs. -/
def tick_nsec (score : Int) : Int :=
  if score ≥ 25 then 200000000
  else if score ≥ 50 then 150000000
  else if score ≥ 75 then 100000000
  else 250000000

/-- The mutable game state of `main`: the snake array and the integers
`length`, `gameover`, `score`, `fruitx`, `fruity`, `flag`. -/
structure GameState where
  snake : Nat → Point
  length : Nat
  gameover : Int
  score : Int
  fruitx : Int
  fruity : Int
  flag : Int

/-- `logic` (snake.c lines 220-250), minus the `nanosleep` side effect
(see `tick_nsec` for the interval it computes). With flag 0 it returns
immediately; otherwise it moves the snake, stores the collision code in
`gameover` and returns on a nonzero code, grows the snake when the moved
head equals the fruit (consuming the `rand()` draws `r1`, `r2`), and
finally sets `gameover = -1` when the score equals 100. -/
def logic (r1 r2 : Nat) (s : GameState) : GameState :=
  if s.flag = 0 then s
  else
    let moved := move_snake s.snake s.length s.flag
    let go := check_collision moved s.length
    if go ≠ 0 then
      { s with snake := moved, gameover := go }
    else
      let afterFruit : GameState :=
        if (moved (s.length - 1)).x = s.fruitx ∧ (moved (s.length - 1)).y = s.fruity then
          let g := grow_snake r1 r2 moved s.length s.score
          { s with snake := g.snake, length := g.length, score := g.score,
                   fruitx := g.fruitx, fruity := g.fruity, gameover := go }
        else { s with snake := moved, gameover := go }
      if afterFruit.score = 100 then { afterFruit with gameover := -1 } else afterFruit

/-- The state set up by `main` (snake.c lines 283-294) before the loop:
the zero-initialised snake array with `snake[0] = (WIDTH/2, HEIGHT/2)`,
`length = 1`, `gameover = 0`, `score = 0`, `flag = 0`, and the fruit from
the initial `fruits` call on the `rand()` draws `r1`, `r2`. -/
def initState (r1 r2 : Nat) : GameState :=
  { snake := fun i => if i = 0 then ⟨WIDTH / 2, HEIGHT / 2⟩ else ⟨0, 0⟩
  , length := 1
  , gameover := 0
  , score := 0
  , fruitx := (fruits r1 r2).1
  , fruity := (fruits r1 r2).2
  , flag := 0 }

/-- The states the `while (gameover == 0)` loop of `main` (snake.c lines
306-316) can reach: the initial state, and from a state with `gameover = 0`
one iteration — `input` updates the flag from arbitrary pending bytes, the
loop continues only when the flag is not the quit signal `-1`, and `logic`
runs on arbitrary `rand()` draws. -/
inductive Reachable : GameState → Prop where
  | init : ∀ r1 r2, Reachable (initState r1 r2)
  | step : ∀ s ch ch2 ch3 r1 r2, Reachable s → s.gameover = 0 →
      input ch ch2 ch3 s.flag ≠ -1 →
      Reachable (logic r1 r2 { s with flag := input ch ch2 ch3 s.flag })

/-- The score-related loop invariant: the score is a nonnegative multiple
of 5, at most 100, and strictly below 100 while the game is still running. -/
def Inv (s : GameState) : Prop :=
  0 ≤ s.score ∧ (5 : Int) ∣ s.score ∧ s.score ≤ 100 ∧ (s.gameover = 0 → s.score ≤ 95)

/-- A length-1 snake sitting at (5,5) about to move right, with score 100:
a collision-free tick exercising the win check. -/
def winTickState : GameState :=
  { snake := fun _ => ⟨5, 5⟩
  , length := 1
  , gameover := 0
  , score := 100
  , fruitx := 1
  , fruity := 1
  , flag := 4 }

/-- A length-1 snake with no direction chosen yet (flag 0). -/
def idleState : GameState :=
  { snake := fun _ => ⟨5, 5⟩
  , length := 1
  , gameover := 0
  , score := 0
  , fruitx := 1
  , fruity := 1
  , flag := 0 }

/-- Claim C1: for every snake of length `L ≥ 1` and every direction flag in
{1 (Down), 2 (Left), 3 (Up), 4 (Right)}, `move_snake` shifts every segment
one slot toward the tail (new segment `i` equals old segment `i+1` for all
`i` with `i+1 < L`) and sets the new head (index `L-1`) to the old head
offset one cell in the flag's direction (Down `row+1`, Up `row-1`, Right
`col+1`, Left `col-1`, with `x` the row and `y` the column); the length is
unchanged (it is passed by value, only the array is rewritten). -/
theorem C1_move_snake (snake : Nat → Point) (L : Nat) (flag : Int)
    (hL : 1 ≤ L) (hD : flag = 1 ∨ flag = 2 ∨ flag = 3 ∨ flag = 4) :
    (∀ i, i + 1 < L → move_snake snake L flag i = snake (i + 1)) ∧
    (flag = 1 → move_snake snake L flag (L - 1) = ⟨(snake (L - 1)).x + 1, (snake (L - 1)).y⟩) ∧
    (flag = 3 → move_snake snake L flag (L - 1) = ⟨(snake (L - 1)).x - 1, (snake (L - 1)).y⟩) ∧
    (flag = 4 → move_snake snake L flag (L - 1) = ⟨(snake (L - 1)).x, (snake (L - 1)).y + 1⟩) ∧
    (flag = 2 → move_snake snake L flag (L - 1) = ⟨(snake (L - 1)).x, (snake (L - 1)).y - 1⟩) ∧
    ((List.range L).map (move_snake snake L flag)).length = L := by
  refine ⟨?_, ?_, ?_, ?_, ?_, by simp⟩
  · intro i hi
    have h1 : i ≠ L - 1 := by omega
    have h2 : i < L := by omega
    simp [move_snake, h1, h2]
  · intro h; subst h; simp [move_snake]
  · intro h; subst h; simp [move_snake]
  · intro h; subst h; simp [move_snake]
  · intro h; subst h; simp [move_snake]

/-- Witness for C1: the length-1 snake at (5,5) moving right ends at (5,6). -/
theorem C1_move_snake_witness : move_snake (fun _ => ⟨5, 5⟩) 1 4 0 = ⟨5, 6⟩ := by
  have h := C1_move_snake (fun _ => ⟨5, 5⟩) 1 4 (by norm_num) (by norm_num)
  simpa using h.2.2.2.1 rfl

/-- Claim C2: for every snake of length `L ≥ 1`, `check_collision` returns
2 (Wall) iff the head's row `x` is `≤ 0` or `≥ HEIGHT-1` or its column `y`
is `≤ 0` or `≥ WIDTH-1`, regardless of self-overlap; returns 1 (Self) iff
no wall condition holds and the head equals some segment of index in
`[0, L-2]`; and returns 0 (None) exactly otherwise — in particular Wall is
reported when both conditions hold. -/
theorem C2_check_collision (snake : Nat → Point) (L : Nat) (hL : 1 ≤ L) :
    (check_collision snake L = 2 ↔
      ((snake (L - 1)).x ≤ 0 ∨ HEIGHT - 1 ≤ (snake (L - 1)).x ∨
        (snake (L - 1)).y ≤ 0 ∨ WIDTH - 1 ≤ (snake (L - 1)).y)) ∧
    (check_collision snake L = 1 ↔
      (¬((snake (L - 1)).x ≤ 0 ∨ HEIGHT - 1 ≤ (snake (L - 1)).x ∨
          (snake (L - 1)).y ≤ 0 ∨ WIDTH - 1 ≤ (snake (L - 1)).y) ∧
        ∃ i, i + 1 < L ∧ snake i = snake (L - 1))) ∧
    (check_collision snake L = 0 ↔
      (¬((snake (L - 1)).x ≤ 0 ∨ HEIGHT - 1 ≤ (snake (L - 1)).x ∨
          (snake (L - 1)).y ≤ 0 ∨ WIDTH - 1 ≤ (snake (L - 1)).y) ∧
        ¬∃ i, i + 1 < L ∧ snake i = snake (L - 1))) := by
  have hex : ((List.range (L - 1)).any (fun i => decide (snake i = snake (L - 1))) = true) ↔
      ∃ i, i + 1 < L ∧ snake i = snake (L - 1) := by
    simp only [List.any_eq_true, List.mem_range, decide_eq_true_eq]
    constructor
    · rintro ⟨i, hi, hp⟩; exact ⟨i, by omega, hp⟩
    · rintro ⟨i, hi, hp⟩; exact ⟨i, by omega, hp⟩
  unfold check_collision
  split_ifs with hw hs
  · exact ⟨⟨fun _ => hw, fun _ => rfl⟩,
      ⟨fun h => absurd h (by norm_num), fun h => (h.1 hw).elim⟩,
      ⟨fun h => absurd h (by norm_num), fun h => (h.1 hw).elim⟩⟩
  · have hE : ∃ i, i + 1 < L ∧ snake i = snake (L - 1) := hex.mp hs
    exact ⟨⟨fun h => absurd h (by norm_num), fun h => (hw h).elim⟩,
      ⟨fun _ => ⟨hw, hE⟩, fun _ => rfl⟩,
      ⟨fun h => absurd h (by norm_num), fun h => (h.2 hE).elim⟩⟩
  · have hE : ¬∃ i, i + 1 < L ∧ snake i = snake (L - 1) := fun h => hs (hex.mpr h)
    exact ⟨⟨fun h => absurd h (by norm_num), fun h => (hw h).elim⟩,
      ⟨fun h => absurd h (by norm_num), fun h => (hE h.2).elim⟩,
      ⟨fun _ => ⟨hw, hE⟩, fun _ => rfl⟩⟩

/-- Witness for C2: a length-1 snake with head at (0,5) is a wall hit. -/
theorem C2_check_collision_witness : check_collision (fun _ => ⟨0, 5⟩) 1 = 2 := by
  have h := C2_check_collision (fun _ => ⟨0, 5⟩) 1 (by norm_num)
  exact h.1.mpr (by decide)

/-- Counterexample to claim C3 at the call
`grow_snake 17 0 (fun _ => (18,1)) 1 0`: the regenerated fruit is (18,1),
whose row 18 is outside `[1, HEIGHT-2] = [1, 8]` and which coincides with
the snake segment at (18,1), so the claimed conjunction fails. -/
theorem C3_counterexample :
    ¬((grow_snake 17 0 (fun _ => ⟨18, 1⟩) 1 0).length = 1 + 1 ∧
      (grow_snake 17 0 (fun _ => ⟨18, 1⟩) 1 0).score = 0 + 5 ∧
      (1 ≤ (grow_snake 17 0 (fun _ => ⟨18, 1⟩) 1 0).fruitx ∧
        (grow_snake 17 0 (fun _ => ⟨18, 1⟩) 1 0).fruitx ≤ HEIGHT - 2) ∧
      (1 ≤ (grow_snake 17 0 (fun _ => ⟨18, 1⟩) 1 0).fruity ∧
        (grow_snake 17 0 (fun _ => ⟨18, 1⟩) 1 0).fruity ≤ WIDTH - 2) ∧
      ∀ i, i < (grow_snake 17 0 (fun _ => ⟨18, 1⟩) 1 0).length →
        (grow_snake 17 0 (fun _ => ⟨18, 1⟩) 1 0).snake i ≠
          ⟨(grow_snake 17 0 (fun _ => ⟨18, 1⟩) 1 0).fruitx,
            (grow_snake 17 0 (fun _ => ⟨18, 1⟩) 1 0).fruity⟩) := by
  decide

/-- Claim C3 (amended): for every call to `grow_snake` the length increases
by exactly 1 and the score by exactly 5, and the regenerated fruit
satisfies `fruitx ∈ [1, WIDTH-2]` and `fruity ∈ [1, HEIGHT-2]` — the `x`
range is drawn with `WIDTH` and the `y` range with `HEIGHT`, swapped
relative to the collision bounds on `x` and `y`; no distinctness from the
snake segments is guaranteed. -/
theorem C3_amended (r1 r2 : Nat) (snake : Nat → Point) (L : Nat) (score : Int) :
    (grow_snake r1 r2 snake L score).length = L + 1 ∧
    (grow_snake r1 r2 snake L score).score = score + 5 ∧
    (1 ≤ (grow_snake r1 r2 snake L score).fruitx ∧
      (grow_snake r1 r2 snake L score).fruitx ≤ WIDTH - 2) ∧
    (1 ≤ (grow_snake r1 r2 snake L score).fruity ∧
      (grow_snake r1 r2 snake L score).fruity ≤ HEIGHT - 2) := by
  refine ⟨rfl, rfl, ?_, ?_⟩ <;>
    · simp only [grow_snake, fruits, WIDTH, HEIGHT]
      omega

/-- Counterexample to claim C5 at the length-2 snake [(1,1),(1,2)]: after
`grow_snake` the segment at index 0 is (1,1), the pre-growth tail, not the
pre-growth head (1,2). -/
theorem C5_counterexample :
    ¬((grow_snake 0 0 (fun i => if i = 0 then (⟨1, 1⟩ : Point) else ⟨1, 2⟩) 2 0).snake 0
        = (fun i => if i = 0 then (⟨1, 1⟩ : Point) else ⟨1, 2⟩) (2 - 1)) := by
  decide

/-- Claim C5 (amended): for every snake of length `L ≥ 1`, growth in
`grow_snake` duplicates the former tail: after the splice the segment at
index 0 equals the pre-growth segment 0 (the tail), which is duplicated at
index 1; every pre-growth segment `i` moves to index `i+1` (so the head is
preserved at the new top index), and the length becomes `L + 1`. -/
theorem C5_amended (r1 r2 : Nat) (snake : Nat → Point) (L : Nat) (score : Int)
    (hL : 1 ≤ L) :
    (grow_snake r1 r2 snake L score).snake 0 = snake 0 ∧
    (grow_snake r1 r2 snake L score).snake 1 = snake 0 ∧
    (∀ i, i < L → (grow_snake r1 r2 snake L score).snake (i + 1) = snake i) ∧
    (grow_snake r1 r2 snake L score).length = L + 1 := by
  refine ⟨rfl, ?_, ?_, rfl⟩
  · simp [grow_snake, hL]
  · intro i hi
    have h1 : i + 1 ≠ 0 := by omega
    have h2 : i + 1 ≤ L := by omega
    simp [grow_snake, h1, h2]

/-- Witness for C5 (amended): growing the length-1 snake at (3,3)
duplicates (3,3) at index 1. -/
theorem C5_amended_witness : (grow_snake 0 0 (fun _ => ⟨3, 3⟩) 1 0).snake 1 = ⟨3, 3⟩ := by
  have h := C5_amended 0 0 (fun _ => ⟨3, 3⟩) 1 0 (by norm_num)
  simpa using h.2.1

/-- Claim C6 (evidence of the code bug): at score 80 the else-if chain of
`logic` computes a 200ms interval, not the claimed 100ms — the first
branch (`score >= 25`) matches, so the `>= 50` and `>= 75` branches are
unreachable. -/
theorem C6_tick_at_80 : tick_nsec 80 = 200000000 ∧ tick_nsec 80 ≠ 100000000 := by decide

/-- Claim C7: for every current heading, a decoded arrow key
(escape sequence 27 91 then 65=Up, 66=Down, 67=Right, 68=Left) updates the
direction flag to the requested direction iff the request is not the exact
opposite of the current heading (Up vs Down is 3 vs 1, Right vs Left is
4 vs 2), a rejected request leaves the flag unchanged, and any byte that is
neither an escape introducer nor the quit key leaves the flag unchanged. -/
theorem C7_input_policy (flag ch ch2 ch3 : Int) :
    (input 27 91 65 flag = if flag = 1 then flag else 3) ∧
    (input 27 91 66 flag = if flag = 3 then flag else 1) ∧
    (input 27 91 67 flag = if flag = 2 then flag else 4) ∧
    (input 27 91 68 flag = if flag = 4 then flag else 2) ∧
    (ch ≠ 27 → ch ≠ 120 → ch ≠ 88 → input ch ch2 ch3 flag = flag) := by
  refine ⟨?_, ?_, ?_, ?_, ?_⟩
  · by_cases h : flag = 1 <;> simp [input, h]
  · by_cases h : flag = 3 <;> simp [input, h]
  · by_cases h : flag = 2 <;> simp [input, h]
  · by_cases h : flag = 4 <;> simp [input, h]
  · intro h1 h2 h3; simp [input, h1, h2, h3]

/-- Witness for C7: Up is rejected while heading Down, and a tick without
pending input (getchar returns -1) keeps heading Right. -/
theorem C7_input_policy_witness :
    input 27 91 65 (1 : Int) = 1 ∧ input (-1) (-1) (-1) (4 : Int) = 4 := by
  constructor
  · have h := (C7_input_policy 1 (-1) (-1) (-1)).1
    simpa using h
  · exact (C7_input_policy 4 (-1) (-1) (-1)).2.2.2.2
      (by norm_num) (by norm_num) (by norm_num)

/-- Claim C9: a tick with direction flag 0 (no key pressed yet) is a true
no-op: `logic` returns before moving, so the snake segments, length,
gameover, score and fruit coordinates are all unchanged. -/
theorem C9_flag_zero_noop (r1 r2 : Nat) (s : GameState) (h : s.flag = 0) :
    logic r1 r2 s = s := by
  simp [logic, h]

/-- Witness for C9 at a concrete length-1 state with flag 0. -/
theorem C9_flag_zero_noop_witness : logic 0 0 idleState = idleState :=
  C9_flag_zero_noop 0 0 idleState rfl

/-- Claim C4: on a tick that moves (flag nonzero) and detects no collision,
`logic` ends with `gameover = -1` exactly when the final score — i.e. the
score after any growth on this same tick — equals 100; the final score is
the old score or the old score plus 5. In particular a final score other
than 100 (even one above 100) does not trigger the won state: the check is
an equality, not a threshold. -/
theorem C4_win_check (r1 r2 : Nat) (s : GameState) (hf : s.flag ≠ 0)
    (hc : check_collision (move_snake s.snake s.length s.flag) s.length = 0) :
    ((logic r1 r2 s).gameover = -1 ↔ (logic r1 r2 s).score = 100) ∧
    ((logic r1 r2 s).score = s.score ∨ (logic r1 r2 s).score = s.score + 5) := by
  by_cases hfr : ((move_snake s.snake s.length s.flag) (s.length - 1)).x = s.fruitx ∧
      ((move_snake s.snake s.length s.flag) (s.length - 1)).y = s.fruity
  · by_cases hwin : s.score + 5 = 100
    · simp [logic, hf, hc, hfr, grow_snake, hwin]
    · simp [logic, hf, hc, hfr, grow_snake, hwin]
  · by_cases hwin : s.score = 100
    · simp [logic, hf, hc, hfr, hwin]
    · simp [logic, hf, hc, hfr, hwin]

/-- Witness for C4: a collision-free rightward tick from score 100 (no
fruit at the target cell) ends with the won state. -/
theorem C4_win_check_witness :
    ((logic 0 0 winTickState).gameover = -1 ↔ (logic 0 0 winTickState).score = 100) ∧
    ((logic 0 0 winTickState).score = winTickState.score ∨
      (logic 0 0 winTickState).score = winTickState.score + 5) :=
  C4_win_check 0 0 winTickState (by decide) (by decide)

/-- Claim C8: `main` creates the snake with length 1 at
`(WIDTH / 2, HEIGHT / 2) = (10, 5)` with score 0 (the fruit coming from
the initial `fruits` call on arbitrary draws); the first Right arrow is
accepted from the unset heading (flag 0 becomes 4), and the tick then
moves the head to (10, 6). -/
theorem C8_init_first_move (r1 r2 r3 r4 : Nat) :
    (initState r1 r2).length = 1 ∧
    (initState r1 r2).snake 0 = ⟨10, 5⟩ ∧
    (initState r1 r2).score = 0 ∧
    input 27 91 67 (initState r1 r2).flag = 4 ∧
    (logic r3 r4 { initState r1 r2 with flag := 4 }).snake
      ((initState r1 r2).length - 1) = ⟨10, 6⟩ := by
  refine ⟨rfl, by norm_num [initState, WIDTH, HEIGHT], rfl, by simp [initState, input], ?_⟩
  norm_num [logic, initState, move_snake, check_collision, WIDTH, HEIGHT]

/-- Every state the game loop can reach satisfies the score invariant
`Inv`: the score starts at 0, only `grow_snake` changes it (by +5), and a
tick that brings it to 100 also sets `gameover = -1`, so a state that can
still take a step has score at most 95. -/
theorem reachable_inv (s : GameState) (h : Reachable s) : Inv s := by
  induction h with
  | init r1 r2 => simp [Inv, initState]
  | step s ch ch2 ch3 r1 r2 hr hg hq ih =>
      obtain ⟨h0, h5, h100, h95⟩ := ih
      have hs95 : s.score ≤ 95 := h95 hg
      obtain ⟨k, hk⟩ := h5
      by_cases hfl : input ch ch2 ch3 s.flag = 0
      · simpa [Inv, logic, hfl] using ⟨h0, ⟨k, hk⟩, h100, fun _ => hs95⟩
      · by_cases hgo : check_collision
            (move_snake s.snake s.length (input ch ch2 ch3 s.flag)) s.length = 0
        · by_cases hfr :
              ((move_snake s.snake s.length (input ch ch2 ch3 s.flag)) (s.length - 1)).x
                  = s.fruitx ∧
                ((move_snake s.snake s.length (input ch ch2 ch3 s.flag)) (s.length - 1)).y
                  = s.fruity
          · by_cases hwin : s.score + 5 = 100
            · simp only [Inv, logic]
              refine ⟨?_, ?_, ?_, ?_⟩ <;>
                simp [hfl, hgo, hfr, hwin, grow_snake] <;> omega
            · simp only [Inv, logic]
              refine ⟨?_, ?_, ?_, ?_⟩ <;>
                simp [hfl, hgo, hfr, hwin, grow_snake] <;> omega
          · by_cases hwin : s.score = 100
            · omega
            · simp only [Inv, logic]
              refine ⟨?_, ?_, ?_, ?_⟩ <;>
                simp [hfl, hgo, hfr, hwin] <;> omega
        · simp only [Inv, logic]
          refine ⟨?_, ?_, ?_, ?_⟩ <;>
            simp [hfl, hgo] <;> omega

/-- Claim C10: in every state reachable by the game loop from the initial
state, the score is a nonnegative multiple of 5 that never exceeds 100;
consequently the win test `score = 100` holds in a reachable state exactly
when `score ≥ 100` does, so the equality check cannot be skipped past. -/
theorem C10_score_invariant (s : GameState) (h : Reachable s) :
    (0 ≤ s.score ∧ (5 : Int) ∣ s.score ∧ s.score ≤ 100) ∧
    (s.score = 100 ↔ 100 ≤ s.score) := by
  obtain ⟨h0, h5, h100, h95⟩ := reachable_inv s h
  exact ⟨⟨h0, h5, h100⟩, by omega⟩

/-- Witness for C10 at the initial state on fruit draws (0,0). -/
theorem C10_score_invariant_witness :
    (0 ≤ (initState 0 0).score ∧ (5 : Int) ∣ (initState 0 0).score ∧
      (initState 0 0).score ≤ 100) ∧
    ((initState 0 0).score = 100 ↔ 100 ≤ (initState 0 0).score) :=
  C10_score_invariant (initState 0 0) (Reachable.init 0 0)

end SnakeGame
